import Mathlib

/-!
Shallow embedding of the healtra-notion-bridge request handlers.

The repository consists of HTTP handlers that validate a JSON payload
describing a medical referral case and translate it into a Notion
property set.  We embed the pure core of the two handler variants:

* `Handler000` — the handler in `src/unnamed/part_000` (field-alias
  normalization, required-field validation, property-set construction).
* `ApiCases` — the `buildProperties` / `normalizeNotionDbId` functions of
  `src/api/cases.js`.

JSON/JavaScript values are modelled by the inductive type `JVal`; the
JavaScript primitives the source relies on (`String(v)`, `Number(v)`,
`trim`, `split(",")`, truthiness, nullish coalescing, `toLowerCase`)
are modelled in the `Js` namespace.  `Js.strToNum` models the integer
fragment of the JavaScript string-to-number conversion (decimal
integers with optional sign; whitespace-only strings convert to 0;
anything else is NaN, represented by `none`) — the claims under study
only exercise this fragment.
-/

/-- A JavaScript/JSON value as it can appear in a request body. -/
inductive JVal where
  | vNull
  | vUndefined
  | vBool (b : Bool)
  | vNum (n : Int)
  | vStr (s : String)
  | vArr (xs : List JVal)

mutual

/-- Boolean equality on `JVal` (used to derive decidable equality,
which the nested occurrence of `List JVal` prevents `deriving` from
producing). -/
def beqJ : JVal → JVal → Bool
  | .vNull, .vNull => true
  | .vUndefined, .vUndefined => true
  | .vBool x, .vBool y => x == y
  | .vNum x, .vNum y => x == y
  | .vStr x, .vStr y => x == y
  | .vArr xs, .vArr ys => beqListJ xs ys
  | _, _ => false

def beqListJ : List JVal → List JVal → Bool
  | [], [] => true
  | x :: xs, y :: ys => beqJ x y && beqListJ xs ys
  | _, _ => false

end

mutual

theorem beqJ_eq : ∀ a b, beqJ a b = true → a = b
  | .vNull, b, h => by cases b <;> simp_all [beqJ]
  | .vUndefined, b, h => by cases b <;> simp_all [beqJ]
  | .vBool x, b, h => by cases b <;> simp_all [beqJ]
  | .vNum x, b, h => by cases b <;> simp_all [beqJ]
  | .vStr x, b, h => by cases b <;> simp_all [beqJ]
  | .vArr xs, b, h => by
    cases b <;> simp_all [beqJ]
    exact beqListJ_eq xs _ h

theorem beqListJ_eq : ∀ xs ys, beqListJ xs ys = true → xs = ys
  | [], [], _ => rfl
  | [], _ :: _, h => by simp [beqListJ] at h
  | _ :: _, [], h => by simp [beqListJ] at h
  | x :: xs, y :: ys, h => by
    simp only [beqListJ, Bool.and_eq_true] at h
    rw [beqJ_eq x y h.1, beqListJ_eq xs ys h.2]

end

mutual

theorem beqJ_refl : ∀ a, beqJ a a = true
  | .vNull => rfl
  | .vUndefined => rfl
  | .vBool x => by simp [beqJ]
  | .vNum x => by simp [beqJ]
  | .vStr x => by simp [beqJ]
  | .vArr xs => by simpa [beqJ] using beqListJ_refl xs

theorem beqListJ_refl : ∀ xs, beqListJ xs xs = true
  | [] => rfl
  | x :: xs => by simp [beqListJ, beqJ_refl x, beqListJ_refl xs]

end

instance : DecidableEq JVal := fun a b =>
  if h : beqJ a b = true then isTrue (beqJ_eq a b h)
  else isFalse fun he => h (he ▸ beqJ_refl a)

namespace Js

/-- JavaScript whitespace recognized by `String.prototype.trim` (ASCII
fragment plus NBSP). -/
def isWs (c : Char) : Bool :=
  c = ' ' || c = '\t' || c = '\n' || c = '\r' ||
  c = Char.ofNat 11 || c = Char.ofNat 12 || c = Char.ofNat 160

/-- `trim` on a character list: drop whitespace from both ends. -/
def trimList (cs : List Char) : List Char :=
  ((cs.dropWhile isWs).reverse.dropWhile isWs).reverse

/-- JavaScript `String.prototype.trim`. -/
def trim (s : String) : String :=
  String.mk (trimList s.data)

mutual

/-- JavaScript `String(v)` for our value fragment.  Arrays stringify as
their elements joined by commas, with `null`/`undefined` elements
rendered as the empty string (`Array.prototype.toString`). -/
def stringOf : JVal → String
  | .vNull => "null"
  | .vUndefined => "undefined"
  | .vBool b => cond b "true" "false"
  | .vNum n => toString n
  | .vStr s => s
  | .vArr xs => joinElems xs

/-- `Array.prototype.join(",")` over our value fragment. -/
def joinElems : List JVal → String
  | [] => ""
  | [x] =>
    match x with
    | .vNull => ""
    | .vUndefined => ""
    | v => stringOf v
  | x :: y :: ys =>
    (match x with
     | .vNull => ""
     | .vUndefined => ""
     | v => stringOf v) ++ "," ++ joinElems (y :: ys)

end

/-- JavaScript truthiness for our value fragment. -/
def truthy : JVal → Bool
  | .vNull => false
  | .vUndefined => false
  | .vBool b => b
  | .vNum n => n != 0
  | .vStr s => s != ""
  | .vArr _ => true

/-- Is the value `null` or `undefined` (the values skipped by `??`)? -/
def isNullish : JVal → Bool
  | .vNull => true
  | .vUndefined => true
  | _ => false

/-- JavaScript nullish coalescing `a ?? b`. -/
def coalesce (a b : JVal) : JVal :=
  if isNullish a then b else a

/-- Value of a nonempty all-digit character list, `none` otherwise. -/
def digitsVal (cs : List Char) : Option Int :=
  if cs ≠ [] ∧ cs.all Char.isDigit then
    some ((cs.foldl (fun a c => a * 10 + (c.toNat - 48)) 0 : Nat) : Int)
  else none

/-- Signed decimal integer literal, `none` otherwise. -/
def signedDigitsVal (cs : List Char) : Option Int :=
  match cs with
  | '+' :: rest => digitsVal rest
  | '-' :: rest => (digitsVal rest).map (fun n => -n)
  | _ => digitsVal cs

/-- The integer fragment of JavaScript `Number(string)`: trim
whitespace; an empty remainder converts to 0; otherwise a signed
decimal integer; anything else is NaN (`none`). -/
def strToNum (s : String) : Option Int :=
  let t := trim s
  if t = "" then some 0 else signedDigitsVal t.data

/-- JavaScript `Number(v)` restricted to finite integer results:
`none` stands for NaN/±Infinity. -/
def numberOf : JVal → Option Int
  | .vNull => some 0
  | .vUndefined => none
  | .vBool b => some (cond b 1 0)
  | .vNum n => some n
  | .vStr s => strToNum s
  | .vArr xs => strToNum (stringOf (.vArr xs))

/-- Split a character list on commas (JavaScript `split(",")`:
`""` yields one empty segment, separators are not merged). -/
def splitCommaList : List Char → List (List Char)
  | [] => [[]]
  | c :: rest =>
    let r := splitCommaList rest
    if c = ',' then [] :: r
    else
      match r with
      | [] => [[c]]
      | h :: t => (c :: h) :: t

/-- JavaScript `s.split(",")`. -/
def splitComma (s : String) : List String :=
  (splitCommaList s.data).map String.mk

/-- ASCII lowercase of one character (the fragment of
`String.prototype.toLowerCase` relevant to hex identifiers). -/
def toLowerChar (c : Char) : Char :=
  if 65 ≤ c.toNat ∧ c.toNat ≤ 90 then Char.ofNat (c.toNat + 32) else c

end Js

/-- A hexadecimal digit, as matched by the source regex `[0-9a-fA-F]`
(expressed on code points: 0-9 is 48–57, a-f is 97–102, A-F is 65–70). -/
def isHexChar (c : Char) : Bool :=
  (48 ≤ c.toNat && c.toNat ≤ 57) || (97 ≤ c.toNat && c.toNat ≤ 102) ||
    (65 ≤ c.toNat && c.toNat ≤ 70)

/-- Leftmost match of the regex `[0-9a-fA-F]{32}`: the first position
from which 32 consecutive hex characters follow, returning that
32-character slice. -/
def scan32 : List Char → Option (List Char)
  | [] => none
  | c :: rest =>
    if ((c :: rest).take 32).length == 32 && ((c :: rest).take 32).all isHexChar
    then some ((c :: rest).take 32)
    else scan32 rest

/-- Re-insert dashes in the canonical 8-4-4-4-12 grouping
(`candidate.slice(0,8) + "-" + candidate.slice(8,12) + ...`). -/
def redash (cs : List Char) : List Char :=
  cs.take 8 ++ '-' :: (cs.drop 8).take 4 ++ '-' :: (cs.drop 12).take 4 ++
    '-' :: (cs.drop 16).take 4 ++ '-' :: cs.drop 20

/-- A canonically dashed identifier: five character groups joined by
single dashes (grouping 8-4-4-4-12 when the groups have those lengths). -/
def dashedGroups (g1 g2 g3 g4 g5 : List Char) : List Char :=
  g1 ++ '-' :: (g2 ++ '-' :: (g3 ++ '-' :: (g4 ++ '-' :: g5)))

/-- A request body: a JSON object, as a key/value association list. -/
def Body : Type := List (String × JVal)

/-- Object property access `body.k`: `undefined` when the key is absent. -/
def jget (body : Body) (k : String) : JVal :=
  (List.lookup k body).getD .vUndefined

/-- The property encodings of the external (Notion) schema used by the
handlers: title, select, rich_text, multi_select, number, date. -/
inductive NotionProp where
  | title (content : String)
  | select (name : String)
  | richText (content : String)
  | multiSelect (names : List String)
  | number (n : Int)
  | date (start : JVal)
deriving DecidableEq

namespace Handler000

/-- `safeStr` of `src/unnamed/part_000`: `null`/`undefined` become the
empty string, everything else its `String(v)` representation. -/
def safeStr : JVal → String
  | .vNull => ""
  | .vUndefined => ""
  | v => Js.stringOf v

/-- `toNumberOrNull` of `src/unnamed/part_000`: `null`, `undefined` and
the empty string give `null`; otherwise `Number(v)` when finite. -/
def toNumberOrNull (v : JVal) : Option Int :=
  if v = .vNull ∨ v = .vUndefined ∨ v = .vStr "" then none else Js.numberOf v

/-- `normalizeArray` of `src/unnamed/part_000`: `null`/`undefined` give
`[]`; an array maps each element through `safeStr` and drops falsy
(empty) strings; any other value is stringified, split on commas,
each segment trimmed, empty segments dropped. -/
def normalizeArray : JVal → List String
  | .vNull => []
  | .vUndefined => []
  | .vArr xs => (xs.map safeStr).filter (fun s => s ≠ "")
  | v => ((Js.splitComma (safeStr v)).map Js.trim).filter (fun s => s ≠ "")

/-- `normalizeNotionDbId` of `src/unnamed/part_000`: trim; take the
first 32-hex match if any, else the whole input; strip dashes; require
exactly 32 hex characters; re-dash 8-4-4-4-12 and lowercase. -/
def normalizeNotionDbId (input : String) : Option String :=
  let raw := Js.trimList input.data
  let pre := match scan32 raw with
    | some m => m
    | none => raw
  let candidate := pre.filter (fun c => c ≠ '-')
  if candidate.length == 32 && candidate.all isHexChar then
    some (String.mk ((redash candidate).map Js.toLowerChar))
  else none

/-- The normalized field record built by the handler at
`src/unnamed/part_000` lines 79–94 (canonical-cased key `??`
lower-camel-case alias; `Source` additionally defaults to `"GPT"`). -/
structure CaseData where
  CaseID : JVal
  Status : JVal
  Urgency : JVal
  Specialty : JVal
  Age : JVal
  Gender : JVal
  Country : JVal
  ChiefComplaint : JVal
  Imaging : JVal
  Notes : JVal
  AssignedTo : JVal
  HospitalsShortlist : JVal
  Budget : JVal
  Source : JVal
deriving DecidableEq

def mkData (body : Body) : CaseData where
  CaseID := Js.coalesce (jget body "CaseID") (jget body "caseId")
  Status := Js.coalesce (jget body "Status") (jget body "status")
  Urgency := Js.coalesce (jget body "Urgency") (jget body "urgency")
  Specialty := Js.coalesce (jget body "Specialty") (jget body "specialty")
  Age := Js.coalesce (jget body "Age") (jget body "age")
  Gender := Js.coalesce (jget body "Gender") (jget body "gender")
  Country := Js.coalesce (jget body "Country") (jget body "country")
  ChiefComplaint := Js.coalesce (jget body "ChiefComplaint") (jget body "chiefComplaint")
  Imaging := Js.coalesce (jget body "Imaging") (jget body "imaging")
  Notes := Js.coalesce (jget body "Notes") (jget body "notes")
  AssignedTo := Js.coalesce (jget body "AssignedTo") (jget body "assignedTo")
  HospitalsShortlist :=
    Js.coalesce (jget body "HospitalsShortlist") (jget body "hospitalsShortlist")
  Budget := Js.coalesce (jget body "Budget") (jget body "budget")
  Source :=
    Js.coalesce (Js.coalesce (jget body "Source") (jget body "source")) (.vStr "GPT")

/-- The constant `required` list of the 400 response. -/
def requiredList : List String :=
  ["caseId/CaseID", "status/Status", "urgency/Urgency", "specialty/Specialty"]

/-- The validation predicate of lines 96–102: one of the four required
fields is empty after `safeStr(…).trim()`. -/
def missingRequired (body : Body) : Bool :=
  Js.trim (safeStr (mkData body).CaseID) == "" ||
  Js.trim (safeStr (mkData body).Status) == "" ||
  Js.trim (safeStr (mkData body).Urgency) == "" ||
  Js.trim (safeStr (mkData body).Specialty) == ""

/-- `Age: toNumberOrNull(data.Age) !== null ? { number: … } : undefined`. -/
def ageProp (d : CaseData) : List (String × NotionProp) :=
  match toNumberOrNull d.Age with
  | some n => [("Age", .number n)]
  | none => []

def genderProp (d : CaseData) : List (String × NotionProp) :=
  if Js.trim (safeStr d.Gender) = "" then []
  else [("Gender", .select (Js.trim (safeStr d.Gender)))]

def countryProp (d : CaseData) : List (String × NotionProp) :=
  if Js.trim (safeStr d.Country) = "" then []
  else [("Country", .select (Js.trim (safeStr d.Country)))]

def chiefComplaintProp (d : CaseData) : List (String × NotionProp) :=
  if Js.trim (safeStr d.ChiefComplaint) = "" then []
  else [("ChiefComplaint", .richText (Js.trim (safeStr d.ChiefComplaint)))]

def imagingProp (d : CaseData) : List (String × NotionProp) :=
  if Js.trim (safeStr d.Imaging) = "" then []
  else [("Imaging", .richText (Js.trim (safeStr d.Imaging)))]

def notesProp (d : CaseData) : List (String × NotionProp) :=
  if Js.trim (safeStr d.Notes) = "" then []
  else [("Notes", .richText (Js.trim (safeStr d.Notes)))]

def hospitalsProp (d : CaseData) : List (String × NotionProp) :=
  if normalizeArray d.HospitalsShortlist = [] then []
  else [("HospitalsShortlist", .multiSelect (normalizeArray d.HospitalsShortlist))]

def budgetProp (d : CaseData) : List (String × NotionProp) :=
  match toNumberOrNull d.Budget with
  | some n => [("Budget", .number n)]
  | none => []

/-- `Source: { select: { name: safeStr(data.Source).trim() || "GPT" } }`. -/
def sourceName (d : CaseData) : String :=
  if Js.trim (safeStr d.Source) = "" then "GPT" else Js.trim (safeStr d.Source)

/-- The property set built at lines 114–158 of `src/unnamed/part_000`,
in object-literal key order, with `undefined` entries removed (the
`AssignedTo` key never appears in the literal; the trailing
`delete properties.AssignedTo` is a no-op). -/
def buildProps (body : Body) (now : String) : List (String × NotionProp) :=
  let d := mkData body
  [("CaseID", NotionProp.title (Js.trim (safeStr d.CaseID))),
   ("Status", NotionProp.select (Js.trim (safeStr d.Status))),
   ("Urgency", NotionProp.select (Js.trim (safeStr d.Urgency))),
   ("Specialty", NotionProp.select (Js.trim (safeStr d.Specialty)))]
  ++ ageProp d ++ genderProp d ++ countryProp d ++ chiefComplaintProp d
  ++ imagingProp d ++ notesProp d ++ hospitalsProp d ++ budgetProp d
  ++ [("CreatedAt", NotionProp.date (Js.coalesce (jget body "CreatedAt") (.vStr now))),
      ("LastEdited", NotionProp.date (.vStr now)),
      ("Source", NotionProp.select (sourceName d))]

/-- Outcome of the handler's pure core (after env checks and body
parsing): either the 400 validation error, or the property set handed
to the external `notion.pages.create` call. -/
inductive Outcome where
  | validationError (required : List String) (receivedKeys : List String)
  | create (properties : List (String × NotionProp))
deriving DecidableEq

/-- Lines 96–163 of `src/unnamed/part_000`: validate, then either
return the 400 payload (`required` list and `Object.keys(body)`) or
reach the external create call with the built property set. -/
def handlerCore (body : Body) (now : String) : Outcome :=
  if missingRequired body then
    .validationError requiredList (body.map Prod.fst)
  else
    .create (buildProps body now)

/-- The keys of the property set the handler sends; `[]` when no
external call is made. -/
def handlerKeys (body : Body) (now : String) : List String :=
  match handlerCore body now with
  | .validationError _ _ => []
  | .create ps => ps.map Prod.fst

end Handler000

namespace ApiCases

/-- `toStr` of `src/api/cases.js`. -/
def toStr : JVal → String
  | .vNull => ""
  | .vUndefined => ""
  | .vStr s => s
  | v => Js.stringOf v

/-- `normalizeNotionDbId` of `src/api/cases.js`: like the variant in
`src/unnamed/part_000`, except dashes are only stripped when no 32-hex
match was found (dash stripping applies only to the no-match branch;
on a 32-hex match the match itself, which has no dashes, is used). -/
def normalizeNotionDbId (input : String) : Option String :=
  let raw := Js.trimList (toStr (.vStr input)).data
  let candidate := match scan32 raw with
    | some m => m
    | none => raw.filter (fun c => c ≠ '-')
  if candidate.length == 32 && candidate.all isHexChar then
    some (String.mk ((redash candidate).map Js.toLowerChar))
  else none

/-- The trimmed `status` local of `buildProperties`:
`toStr(body.status || "New").trim()`. -/
def statusVal (body : Body) : String :=
  Js.trim (toStr (if Js.truthy (jget body "status") then jget body "status"
                  else .vStr "New"))

/-- The property set assembled by `buildProperties` (lines 72–95 of
`src/api/cases.js`), in insertion order. -/
def casesProps (body : Body) : List (String × NotionProp) :=
  [("CaseID", NotionProp.title (Js.trim (toStr (jget body "caseId")))),
   ("Status", NotionProp.select (if statusVal body = "" then "New" else statusVal body))]
  ++ (if Js.trim (toStr (jget body "specialty")) = "" then []
      else [("Specialty", NotionProp.select (Js.trim (toStr (jget body "specialty"))))])
  ++ (if Js.trim (toStr (jget body "urgency")) = "" then []
      else [("Urgency", NotionProp.select (Js.trim (toStr (jget body "urgency"))))])
  ++ (if Js.trim (toStr (jget body "country")) = "" then []
      else [("Country", NotionProp.select (Js.trim (toStr (jget body "country"))))])
  ++ (if Js.trim (toStr (jget body "chiefComplaint")) = "" then []
      else [("ChiefComplaint",
              NotionProp.richText (Js.trim (toStr (jget body "chiefComplaint"))))])
  ++ (if Js.trim (toStr (jget body "imaging")) = "" then []
      else [("Imaging", NotionProp.richText (Js.trim (toStr (jget body "imaging"))))])
  ++ (if Js.trim (toStr (jget body "notes")) = "" then []
      else [("Notes", NotionProp.richText (Js.trim (toStr (jget body "notes"))))])

/-- `buildProperties` of `src/api/cases.js`: error when the trimmed
`caseId` is empty, otherwise the assembled property set. -/
def buildProperties (body : Body) : Except String (List (String × NotionProp)) :=
  if Js.trim (toStr (jget body "caseId")) = "" then
    .error "caseId is required"
  else
    .ok (casesProps body)

end ApiCases


/-! ## General lemmas about the identifier-normalization pipeline -/

theorem char_toNat_ofNat (n : Nat) (h : Nat.isValidChar n) : (Char.ofNat n).toNat = n := by
  simp [Char.ofNat, dif_pos h, Char.ofNatAux, Char.toNat, UInt32.toNat, BitVec.toNat_ofNatLt]

theorem hex_ne_dash {c : Char} (h : isHexChar c = true) : c ≠ '-' := by
  intro he; subst he; exact absurd h (by decide)

theorem not_ws_of_hex {c : Char} (h : isHexChar c = true) : Js.isWs c = false := by
  by_contra hw
  rw [Bool.not_eq_false] at hw
  simp only [Js.isWs, Bool.or_eq_true, decide_eq_true_eq] at hw
  rcases hw with ((((((rfl | rfl) | rfl) | rfl) | rfl) | rfl) | rfl) <;>
    exact absurd h (by decide)

theorem dropWhile_eq_self_of {p : Char → Bool} {l : List Char}
    (h : ∀ c ∈ l, p c = false) : l.dropWhile p = l := by
  cases l with
  | nil => rfl
  | cons a t =>
    rw [List.dropWhile_cons]
    simp [h a (List.mem_cons_self a t)]

theorem trimList_eq_self {l : List Char} (h : ∀ c ∈ l, Js.isWs c = false) :
    Js.trimList l = l := by
  unfold Js.trimList
  rw [dropWhile_eq_self_of h,
    dropWhile_eq_self_of (fun c hc => h c (List.mem_reverse.mp hc)),
    List.reverse_reverse]

theorem scan32_eq_some : ∀ (cs m : List Char), scan32 cs = some m →
    ∃ k, k + 32 ≤ cs.length ∧ m = (cs.drop k).take 32 ∧ m.all isHexChar = true
  | [], m, h => by simp [scan32] at h
  | c :: rest, m, h => by
    rw [scan32] at h
    split at h
    · next hcond =>
      injection h with h
      simp only [Bool.and_eq_true, beq_iff_eq] at hcond
      refine ⟨0, ?_, ?_, ?_⟩
      · have hl := hcond.1
        rw [List.length_take, Nat.min_def] at hl
        split at hl <;> omega
      · rw [List.drop_zero, h]
      · rw [← h]; exact hcond.2
    · next =>
      obtain ⟨k, hk, hm, hx⟩ := scan32_eq_some rest m h
      refine ⟨k + 1, ?_, ?_, hx⟩
      · simp only [List.length_cons]; omega
      · rw [List.drop_succ_cons]; exact hm

theorem scan32_dashed_none (g1 g2 g3 g4 g5 : List Char)
    (h1 : g1.length = 8) (h2 : g2.length = 4) (h3 : g3.length = 4)
    (h4 : g4.length = 4) (h5 : g5.length = 12) :
    scan32 (dashedGroups g1 g2 g3 g4 g5) = none := by
  cases hsc : scan32 (dashedGroups g1 g2 g3 g4 g5) with
  | none => rfl
  | some m =>
    exfalso
    obtain ⟨k, hk, hm, hx⟩ := scan32_eq_some _ m hsc
    have hlen : (dashedGroups g1 g2 g3 g4 g5).length = 36 := by
      simp [dashedGroups, h1, h2, h3, h4, h5]
    have h8 : (dashedGroups g1 g2 g3 g4 g5)[8]? = some '-' := by
      show (g1 ++ '-' :: (g2 ++ '-' :: (g3 ++ '-' :: (g4 ++ '-' :: g5))))[8]? = some '-'
      rw [List.getElem?_append_right (by omega : g1.length ≤ 8), h1]
      norm_num
    have hmem : '-' ∈ m := by
      have hidx : m[8 - k]? = some '-' := by
        rw [hm, List.getElem?_take, if_pos (by omega : 8 - k < 32),
          List.getElem?_drop, show k + (8 - k) = 8 from by omega, h8]
      exact List.getElem?_mem hidx
    exact absurd (List.all_eq_true.mp hx '-' hmem) (by decide)

theorem filter_ne_dash_hex (l : List Char) (h : ∀ ch ∈ l, isHexChar ch = true) :
    l.filter (fun x => x ≠ '-') = l :=
  List.filter_eq_self.mpr (fun a ha => decide_eq_true (hex_ne_dash (h a ha)))

theorem filter_dashedGroups (g1 g2 g3 g4 g5 : List Char)
    (hx : ∀ ch ∈ g1 ++ (g2 ++ (g3 ++ (g4 ++ g5))), isHexChar ch = true) :
    (dashedGroups g1 g2 g3 g4 g5).filter (fun x => x ≠ '-') =
      g1 ++ (g2 ++ (g3 ++ (g4 ++ g5))) := by
  have m1 : ∀ ch ∈ g1, isHexChar ch = true := fun ch hc => hx ch (by simp [hc])
  have m2 : ∀ ch ∈ g2, isHexChar ch = true := fun ch hc => hx ch (by simp [hc])
  have m3 : ∀ ch ∈ g3, isHexChar ch = true := fun ch hc => hx ch (by simp [hc])
  have m4 : ∀ ch ∈ g4, isHexChar ch = true := fun ch hc => hx ch (by simp [hc])
  have m5 : ∀ ch ∈ g5, isHexChar ch = true := fun ch hc => hx ch (by simp [hc])
  have key : ∀ (l : List Char), (∀ ch ∈ l, isHexChar ch = true) →
      List.filter (fun x => !decide (x = '-')) l = l := fun l h =>
    List.filter_eq_self.mpr (fun a ha => by simp [hex_ne_dash (h a ha)])
  simp only [dashedGroups, List.filter_append, List.filter_cons]
  simp only [decide_eq_true_eq]
  rw [if_neg (by simp), if_neg (by simp), if_neg (by simp), if_neg (by simp)]
  simp only [show (fun x => decide ¬(x = '-')) = (fun x => !decide (x = '-')) from
    funext (fun x => by simp)]
  rw [key g1 m1, key g2 m2, key g3 m3, key g4 m4, key g5 m5]

theorem redash_concat (g1 g2 g3 g4 g5 : List Char)
    (h1 : g1.length = 8) (h2 : g2.length = 4) (h3 : g3.length = 4)
    (h4 : g4.length = 4) :
    redash (g1 ++ (g2 ++ (g3 ++ (g4 ++ g5)))) = dashedGroups g1 g2 g3 g4 g5 := by
  have e2 : (g1 ++ (g2 ++ (g3 ++ (g4 ++ g5)))).drop 8 = g2 ++ (g3 ++ (g4 ++ g5)) :=
    List.drop_left' h1
  have e3 : (g1 ++ (g2 ++ (g3 ++ (g4 ++ g5)))).drop 12 = g3 ++ (g4 ++ g5) := by
    rw [show g1 ++ (g2 ++ (g3 ++ (g4 ++ g5))) = (g1 ++ g2) ++ (g3 ++ (g4 ++ g5)) by
      simp [List.append_assoc]]
    exact List.drop_left' (by simp [h1, h2])
  have e4 : (g1 ++ (g2 ++ (g3 ++ (g4 ++ g5)))).drop 16 = g4 ++ g5 := by
    rw [show g1 ++ (g2 ++ (g3 ++ (g4 ++ g5))) = ((g1 ++ g2) ++ g3) ++ (g4 ++ g5) by
      simp [List.append_assoc]]
    exact List.drop_left' (by simp [h1, h2, h3])
  have e5 : (g1 ++ (g2 ++ (g3 ++ (g4 ++ g5)))).drop 20 = g5 := by
    rw [show g1 ++ (g2 ++ (g3 ++ (g4 ++ g5))) = (((g1 ++ g2) ++ g3) ++ g4) ++ g5 by
      simp [List.append_assoc]]
    exact List.drop_left' (by simp [h1, h2, h3, h4])
  unfold redash dashedGroups
  rw [List.take_left' h1, e2, List.take_left' h2, e3, List.take_left' h3, e4,
    List.take_left' h4, e5]
  simp [List.append_assoc]

theorem toLowerChar_toNat {c : Char} (hc : 65 ≤ c.toNat ∧ c.toNat ≤ 90) :
    (Js.toLowerChar c).toNat = c.toNat + 32 := by
  unfold Js.toLowerChar
  rw [if_pos hc]
  exact char_toNat_ofNat _ (Or.inl (by omega))

theorem toLowerChar_eq_self {c : Char} (hc : ¬(65 ≤ c.toNat ∧ c.toNat ≤ 90)) :
    Js.toLowerChar c = c := by
  unfold Js.toLowerChar
  rw [if_neg hc]

theorem toLowerChar_idem (c : Char) :
    Js.toLowerChar (Js.toLowerChar c) = Js.toLowerChar c := by
  by_cases hc : 65 ≤ c.toNat ∧ c.toNat ≤ 90
  · apply toLowerChar_eq_self
    rw [toLowerChar_toNat hc]
    omega
  · rw [toLowerChar_eq_self hc, toLowerChar_eq_self hc]

theorem isHexChar_toLowerChar {c : Char} (h : isHexChar c = true) :
    isHexChar (Js.toLowerChar c) = true := by
  by_cases hc : 65 ≤ c.toNat ∧ c.toNat ≤ 90
  · simp only [isHexChar, Bool.or_eq_true, Bool.and_eq_true, decide_eq_true_eq] at h ⊢
    rw [toLowerChar_toNat hc]
    omega
  · rw [toLowerChar_eq_self hc]
    exact h

theorem normalize_dashed (g1 g2 g3 g4 g5 : List Char)
    (h1 : g1.length = 8) (h2 : g2.length = 4) (h3 : g3.length = 4)
    (h4 : g4.length = 4) (h5 : g5.length = 12)
    (hx : ∀ ch ∈ g1 ++ (g2 ++ (g3 ++ (g4 ++ g5))), isHexChar ch = true) :
    Handler000.normalizeNotionDbId (String.mk (dashedGroups g1 g2 g3 g4 g5)) =
      some (String.mk ((dashedGroups g1 g2 g3 g4 g5).map Js.toLowerChar)) ∧
    ApiCases.normalizeNotionDbId (String.mk (dashedGroups g1 g2 g3 g4 g5)) =
      some (String.mk ((dashedGroups g1 g2 g3 g4 g5).map Js.toLowerChar)) := by
  have hmemd : ∀ ch ∈ dashedGroups g1 g2 g3 g4 g5, isHexChar ch = true ∨ ch = '-' := by
    intro ch hc
    simp only [dashedGroups, List.mem_append, List.mem_cons] at hc
    rcases hc with h | h | h | h | h | h | h | h | h
    · exact Or.inl (hx ch (by simp [h]))
    · exact Or.inr h
    · exact Or.inl (hx ch (by simp [h]))
    · exact Or.inr h
    · exact Or.inl (hx ch (by simp [h]))
    · exact Or.inr h
    · exact Or.inl (hx ch (by simp [h]))
    · exact Or.inr h
    · exact Or.inl (hx ch (by simp [h]))
  have hws : ∀ ch ∈ dashedGroups g1 g2 g3 g4 g5, Js.isWs ch = false := by
    intro ch hc
    rcases hmemd ch hc with h | rfl
    · exact not_ws_of_hex h
    · decide
  have htrim : Js.trimList (dashedGroups g1 g2 g3 g4 g5) = dashedGroups g1 g2 g3 g4 g5 :=
    trimList_eq_self hws
  have hscan := scan32_dashed_none g1 g2 g3 g4 g5 h1 h2 h3 h4 h5
  have hcand : (dashedGroups g1 g2 g3 g4 g5).filter (fun x => x ≠ '-') =
      g1 ++ (g2 ++ (g3 ++ (g4 ++ g5))) := filter_dashedGroups g1 g2 g3 g4 g5 hx
  have hlen : (g1 ++ (g2 ++ (g3 ++ (g4 ++ g5)))).length = 32 := by
    simp [h1, h2, h3, h4, h5]
  have hall : (g1 ++ (g2 ++ (g3 ++ (g4 ++ g5)))).all isHexChar = true :=
    List.all_eq_true.mpr hx
  have hred : redash (g1 ++ (g2 ++ (g3 ++ (g4 ++ g5)))) = dashedGroups g1 g2 g3 g4 g5 :=
    redash_concat g1 g2 g3 g4 g5 h1 h2 h3 h4
  constructor
  · show Handler000.normalizeNotionDbId (String.mk (dashedGroups g1 g2 g3 g4 g5)) = _
    unfold Handler000.normalizeNotionDbId
    simp only [htrim, hscan, hcand, hlen, hall, hred]
    norm_num
  · show ApiCases.normalizeNotionDbId (String.mk (dashedGroups g1 g2 g3 g4 g5)) = _
    unfold ApiCases.normalizeNotionDbId
    simp only [ApiCases.toStr, htrim, hscan, hcand, hlen, hall, hred]
    norm_num

/-- C4: For every already-canonical dashed 32-hex identifier string (in
any letter case), `normalizeNotionDbId` (in both source variants)
returns that same identifier lowercased, and applying normalization to
the result returns it unchanged, so normalizing twice equals
normalizing once. -/
theorem claim_c4_normalize_idempotent (s t : String) (g1 g2 g3 g4 g5 : List Char)
    (h1 : g1.length = 8) (h2 : g2.length = 4) (h3 : g3.length = 4)
    (h4 : g4.length = 4) (h5 : g5.length = 12)
    (hx : ∀ ch ∈ g1 ++ (g2 ++ (g3 ++ (g4 ++ g5))), isHexChar ch = true)
    (hs : s.data = dashedGroups g1 g2 g3 g4 g5)
    (ht : t.data = (dashedGroups g1 g2 g3 g4 g5).map Js.toLowerChar) :
    Handler000.normalizeNotionDbId s = some t ∧
    ApiCases.normalizeNotionDbId s = some t ∧
    Handler000.normalizeNotionDbId t = some t ∧
    ApiCases.normalizeNotionDbId t = some t := by
  have hs' : s = String.mk (dashedGroups g1 g2 g3 g4 g5) := by
    rw [← hs]
  have ht' : t = String.mk ((dashedGroups g1 g2 g3 g4 g5).map Js.toLowerChar) := by
    rw [← ht]
  subst hs'
  subst ht'
  obtain ⟨hA, hB⟩ := normalize_dashed g1 g2 g3 g4 g5 h1 h2 h3 h4 h5 hx
  have hmapglue : (dashedGroups g1 g2 g3 g4 g5).map Js.toLowerChar =
      dashedGroups (g1.map Js.toLowerChar) (g2.map Js.toLowerChar)
        (g3.map Js.toLowerChar) (g4.map Js.toLowerChar) (g5.map Js.toLowerChar) := by
    simp [dashedGroups, show Js.toLowerChar '-' = '-' from by decide]
  have hx' : ∀ ch ∈ g1.map Js.toLowerChar ++ (g2.map Js.toLowerChar ++
      (g3.map Js.toLowerChar ++ (g4.map Js.toLowerChar ++ g5.map Js.toLowerChar))),
      isHexChar ch = true := by
    intro ch hc
    simp only [← List.map_append] at hc
    obtain ⟨x, hxm, rfl⟩ := List.mem_map.mp hc
    exact isHexChar_toLowerChar (hx x hxm)
  obtain ⟨hC, hD⟩ := normalize_dashed _ _ _ _ _
    (by simp [h1]) (by simp [h2]) (by simp [h3]) (by simp [h4]) (by simp [h5]) hx'
  have hdd : (dashedGroups (g1.map Js.toLowerChar) (g2.map Js.toLowerChar)
      (g3.map Js.toLowerChar) (g4.map Js.toLowerChar) (g5.map Js.toLowerChar)).map
        Js.toLowerChar =
      dashedGroups (g1.map Js.toLowerChar) (g2.map Js.toLowerChar)
        (g3.map Js.toLowerChar) (g4.map Js.toLowerChar) (g5.map Js.toLowerChar) := by
    rw [← hmapglue, List.map_map]
    simp [Function.comp, toLowerChar_idem]
  refine ⟨hA, hB, ?_, ?_⟩
  · rw [hmapglue]
    rw [hC, hdd]
  · rw [hmapglue]
    rw [hD, hdd]

/-- Witness for C4 at the concrete identifier
`2D31C70F-CE6F-8096-9F7A-D4BD1ECD16A4`. -/
theorem claim_c4_witness :
    Handler000.normalizeNotionDbId "2D31C70F-CE6F-8096-9F7A-D4BD1ECD16A4" =
      some "2d31c70f-ce6f-8096-9f7a-d4bd1ecd16a4" ∧
    ApiCases.normalizeNotionDbId "2D31C70F-CE6F-8096-9F7A-D4BD1ECD16A4" =
      some "2d31c70f-ce6f-8096-9f7a-d4bd1ecd16a4" ∧
    Handler000.normalizeNotionDbId "2d31c70f-ce6f-8096-9f7a-d4bd1ecd16a4" =
      some "2d31c70f-ce6f-8096-9f7a-d4bd1ecd16a4" ∧
    ApiCases.normalizeNotionDbId "2d31c70f-ce6f-8096-9f7a-d4bd1ecd16a4" =
      some "2d31c70f-ce6f-8096-9f7a-d4bd1ecd16a4" :=
  claim_c4_normalize_idempotent
    "2D31C70F-CE6F-8096-9F7A-D4BD1ECD16A4" "2d31c70f-ce6f-8096-9f7a-d4bd1ecd16a4"
    ['2', 'D', '3', '1', 'C', '7', '0', 'F'] ['C', 'E', '6', 'F']
    ['8', '0', '9', '6'] ['9', 'F', '7', 'A']
    ['D', '4', 'B', 'D', '1', 'E', 'C', 'D', '1', '6', 'A', '4']
    (by decide) (by decide) (by decide) (by decide) (by decide)
    (by decide) (by decide) (by decide)

/-! ## Lemmas about the property set of the part_000 handler -/

namespace Handler000

theorem ageProp_keys (d : CaseData) (k : String) :
    k ∈ (ageProp d).map Prod.fst ↔ k = "Age" ∧ toNumberOrNull d.Age ≠ none := by
  unfold ageProp
  cases h : toNumberOrNull d.Age <;> simp [h]

theorem budgetProp_keys (d : CaseData) (k : String) :
    k ∈ (budgetProp d).map Prod.fst ↔ k = "Budget" ∧ toNumberOrNull d.Budget ≠ none := by
  unfold budgetProp
  cases h : toNumberOrNull d.Budget <;> simp [h]

theorem genderProp_keys (d : CaseData) (k : String) :
    k ∈ (genderProp d).map Prod.fst ↔ k = "Gender" ∧ Js.trim (safeStr d.Gender) ≠ "" := by
  unfold genderProp
  split <;> simp_all

theorem countryProp_keys (d : CaseData) (k : String) :
    k ∈ (countryProp d).map Prod.fst ↔ k = "Country" ∧ Js.trim (safeStr d.Country) ≠ "" := by
  unfold countryProp
  split <;> simp_all

theorem chiefComplaintProp_keys (d : CaseData) (k : String) :
    k ∈ (chiefComplaintProp d).map Prod.fst ↔
      k = "ChiefComplaint" ∧ Js.trim (safeStr d.ChiefComplaint) ≠ "" := by
  unfold chiefComplaintProp
  split <;> simp_all

theorem imagingProp_keys (d : CaseData) (k : String) :
    k ∈ (imagingProp d).map Prod.fst ↔ k = "Imaging" ∧ Js.trim (safeStr d.Imaging) ≠ "" := by
  unfold imagingProp
  split <;> simp_all

theorem notesProp_keys (d : CaseData) (k : String) :
    k ∈ (notesProp d).map Prod.fst ↔ k = "Notes" ∧ Js.trim (safeStr d.Notes) ≠ "" := by
  unfold notesProp
  split <;> simp_all

theorem hospitalsProp_keys (d : CaseData) (k : String) :
    k ∈ (hospitalsProp d).map Prod.fst ↔
      k = "HospitalsShortlist" ∧ normalizeArray d.HospitalsShortlist ≠ [] := by
  unfold hospitalsProp
  split <;> simp_all

/-- Membership of each optional key in the constructed property set is
equivalent to its source value resolving. -/
theorem mem_keys_age (body : Body) (now : String) :
    "Age" ∈ (buildProps body now).map Prod.fst ↔
      toNumberOrNull (mkData body).Age ≠ none := by
  simp only [buildProps, List.map_append, List.mem_append, List.map_cons, List.map_nil,
    List.mem_cons, List.not_mem_nil, or_false,
    ageProp_keys, genderProp_keys, countryProp_keys, chiefComplaintProp_keys,
    imagingProp_keys, notesProp_keys, hospitalsProp_keys, budgetProp_keys]
  simp

theorem mem_keys_budget (body : Body) (now : String) :
    "Budget" ∈ (buildProps body now).map Prod.fst ↔
      toNumberOrNull (mkData body).Budget ≠ none := by
  simp only [buildProps, List.map_append, List.mem_append, List.map_cons, List.map_nil,
    List.mem_cons, List.not_mem_nil, or_false,
    ageProp_keys, genderProp_keys, countryProp_keys, chiefComplaintProp_keys,
    imagingProp_keys, notesProp_keys, hospitalsProp_keys, budgetProp_keys]
  simp

theorem mem_keys_gender (body : Body) (now : String) :
    "Gender" ∈ (buildProps body now).map Prod.fst ↔
      Js.trim (safeStr (mkData body).Gender) ≠ "" := by
  simp only [buildProps, List.map_append, List.mem_append, List.map_cons, List.map_nil,
    List.mem_cons, List.not_mem_nil, or_false,
    ageProp_keys, genderProp_keys, countryProp_keys, chiefComplaintProp_keys,
    imagingProp_keys, notesProp_keys, hospitalsProp_keys, budgetProp_keys]
  simp

theorem mem_keys_country (body : Body) (now : String) :
    "Country" ∈ (buildProps body now).map Prod.fst ↔
      Js.trim (safeStr (mkData body).Country) ≠ "" := by
  simp only [buildProps, List.map_append, List.mem_append, List.map_cons, List.map_nil,
    List.mem_cons, List.not_mem_nil, or_false,
    ageProp_keys, genderProp_keys, countryProp_keys, chiefComplaintProp_keys,
    imagingProp_keys, notesProp_keys, hospitalsProp_keys, budgetProp_keys]
  simp

theorem mem_keys_chiefComplaint (body : Body) (now : String) :
    "ChiefComplaint" ∈ (buildProps body now).map Prod.fst ↔
      Js.trim (safeStr (mkData body).ChiefComplaint) ≠ "" := by
  simp only [buildProps, List.map_append, List.mem_append, List.map_cons, List.map_nil,
    List.mem_cons, List.not_mem_nil, or_false,
    ageProp_keys, genderProp_keys, countryProp_keys, chiefComplaintProp_keys,
    imagingProp_keys, notesProp_keys, hospitalsProp_keys, budgetProp_keys]
  simp

theorem mem_keys_imaging (body : Body) (now : String) :
    "Imaging" ∈ (buildProps body now).map Prod.fst ↔
      Js.trim (safeStr (mkData body).Imaging) ≠ "" := by
  simp only [buildProps, List.map_append, List.mem_append, List.map_cons, List.map_nil,
    List.mem_cons, List.not_mem_nil, or_false,
    ageProp_keys, genderProp_keys, countryProp_keys, chiefComplaintProp_keys,
    imagingProp_keys, notesProp_keys, hospitalsProp_keys, budgetProp_keys]
  simp

theorem mem_keys_notes (body : Body) (now : String) :
    "Notes" ∈ (buildProps body now).map Prod.fst ↔
      Js.trim (safeStr (mkData body).Notes) ≠ "" := by
  simp only [buildProps, List.map_append, List.mem_append, List.map_cons, List.map_nil,
    List.mem_cons, List.not_mem_nil, or_false,
    ageProp_keys, genderProp_keys, countryProp_keys, chiefComplaintProp_keys,
    imagingProp_keys, notesProp_keys, hospitalsProp_keys, budgetProp_keys]
  simp

theorem mem_keys_hospitals (body : Body) (now : String) :
    "HospitalsShortlist" ∈ (buildProps body now).map Prod.fst ↔
      normalizeArray (mkData body).HospitalsShortlist ≠ [] := by
  simp only [buildProps, List.map_append, List.mem_append, List.map_cons, List.map_nil,
    List.mem_cons, List.not_mem_nil, or_false,
    ageProp_keys, genderProp_keys, countryProp_keys, chiefComplaintProp_keys,
    imagingProp_keys, notesProp_keys, hospitalsProp_keys, budgetProp_keys]
  simp

theorem not_mem_keys_assignedTo (body : Body) (now : String) :
    "AssignedTo" ∉ (buildProps body now).map Prod.fst := by
  simp only [buildProps, List.map_append, List.mem_append, List.map_cons, List.map_nil,
    List.mem_cons, List.not_mem_nil, or_false,
    ageProp_keys, genderProp_keys, countryProp_keys, chiefComplaintProp_keys,
    imagingProp_keys, notesProp_keys, hospitalsProp_keys, budgetProp_keys]
  simp

end Handler000

namespace Handler000

theorem handlerCore_invalid (body : Body) (now : String)
    (h : missingRequired body = true) :
    handlerCore body now = .validationError requiredList (body.map Prod.fst) := by
  unfold handlerCore
  rw [if_pos h]

theorem handlerCore_valid (body : Body) (now : String)
    (h : missingRequired body = false) :
    handlerCore body now = .create (buildProps body now) := by
  unfold handlerCore
  rw [if_neg (by simp [h])]

theorem age_entry_mem (body : Body) (now : String) (n : Int)
    (h : toNumberOrNull (mkData body).Age = some n) :
    ("Age", NotionProp.number n) ∈ buildProps body now := by
  simp [buildProps, ageProp, h]

theorem budget_entry_mem (body : Body) (now : String) (n : Int)
    (h : toNumberOrNull (mkData body).Budget = some n) :
    ("Budget", NotionProp.number n) ∈ buildProps body now := by
  simp [buildProps, budgetProp, h]

end Handler000

theorem coalesce_not_nullish (x y : JVal) (h : Js.isNullish x = false) :
    Js.coalesce x y = x := by
  simp [Js.coalesce, h]

/-! ## Claim theorems -/

/-- C1 (counterexample): a valid payload whose `age` field is the
whitespace-only string `" "` — a value that is empty after trimming —
still yields an `Age` number property (with value 0) in the
constructed property set, so the omission claim fails as stated. -/
theorem claim_c1_cex :
    Handler000.missingRequired
        [("caseId", JVal.vStr "MC-1"), ("status", JVal.vStr "Open"),
         ("urgency", JVal.vStr "High"), ("specialty", JVal.vStr "Cardio"),
         ("age", JVal.vStr " ")] = false ∧
    Js.trim (Handler000.safeStr (Handler000.mkData
        [("caseId", JVal.vStr "MC-1"), ("status", JVal.vStr "Open"),
         ("urgency", JVal.vStr "High"), ("specialty", JVal.vStr "Cardio"),
         ("age", JVal.vStr " ")]).Age) = "" ∧
    ("Age", NotionProp.number 0) ∈ Handler000.buildProps
        [("caseId", JVal.vStr "MC-1"), ("status", JVal.vStr "Open"),
         ("urgency", JVal.vStr "High"), ("specialty", JVal.vStr "Cardio"),
         ("age", JVal.vStr " ")] "T" := by decide

/-- C1 (amended): for every valid payload the handler reaches the
external call with the constructed property set, and each optional
property appears in that set exactly when its source value resolves:
the string-typed fields (gender, country, chief complaint, imaging,
notes) when they are non-empty after trimming, the list field when its
normalization is non-empty, and the numeric fields (age, budget) when
numeric coercion succeeds — absent, null, empty or unparsable numeric
values are omitted, but a whitespace-only numeric string coerces to 0
and is included. -/
theorem claim_c1_omission (body : Body) (now : String)
    (h : Handler000.missingRequired body = false) :
    Handler000.handlerCore body now =
      Handler000.Outcome.create (Handler000.buildProps body now) ∧
    ("Age" ∈ (Handler000.buildProps body now).map Prod.fst ↔
      Handler000.toNumberOrNull (Handler000.mkData body).Age ≠ none) ∧
    ("Gender" ∈ (Handler000.buildProps body now).map Prod.fst ↔
      Js.trim (Handler000.safeStr (Handler000.mkData body).Gender) ≠ "") ∧
    ("Country" ∈ (Handler000.buildProps body now).map Prod.fst ↔
      Js.trim (Handler000.safeStr (Handler000.mkData body).Country) ≠ "") ∧
    ("ChiefComplaint" ∈ (Handler000.buildProps body now).map Prod.fst ↔
      Js.trim (Handler000.safeStr (Handler000.mkData body).ChiefComplaint) ≠ "") ∧
    ("Imaging" ∈ (Handler000.buildProps body now).map Prod.fst ↔
      Js.trim (Handler000.safeStr (Handler000.mkData body).Imaging) ≠ "") ∧
    ("Notes" ∈ (Handler000.buildProps body now).map Prod.fst ↔
      Js.trim (Handler000.safeStr (Handler000.mkData body).Notes) ≠ "") ∧
    ("HospitalsShortlist" ∈ (Handler000.buildProps body now).map Prod.fst ↔
      Handler000.normalizeArray (Handler000.mkData body).HospitalsShortlist ≠ []) ∧
    ("Budget" ∈ (Handler000.buildProps body now).map Prod.fst ↔
      Handler000.toNumberOrNull (Handler000.mkData body).Budget ≠ none) :=
  ⟨Handler000.handlerCore_valid body now h,
   Handler000.mem_keys_age body now, Handler000.mem_keys_gender body now,
   Handler000.mem_keys_country body now, Handler000.mem_keys_chiefComplaint body now,
   Handler000.mem_keys_imaging body now, Handler000.mem_keys_notes body now,
   Handler000.mem_keys_hospitals body now, Handler000.mem_keys_budget body now⟩

/-- Witness for C1 (amended) at a concrete valid payload. -/
theorem claim_c1_witness :
    Handler000.handlerCore [("CaseID", JVal.vStr "W1"), ("Status", JVal.vStr "Open"),
      ("Urgency", JVal.vStr "Low"), ("Specialty", JVal.vStr "Onc")] "T" =
      Handler000.Outcome.create (Handler000.buildProps
        [("CaseID", JVal.vStr "W1"), ("Status", JVal.vStr "Open"),
         ("Urgency", JVal.vStr "Low"), ("Specialty", JVal.vStr "Onc")] "T") :=
  (claim_c1_omission [("CaseID", JVal.vStr "W1"), ("Status", JVal.vStr "Open"),
    ("Urgency", JVal.vStr "Low"), ("Specialty", JVal.vStr "Onc")] "T" (by decide)).1

/-- C2: whenever one of the four required fields is empty after
trimming, the handler core returns the 400 validation-error payload
(whose `required` list names each missing field and whose
`receivedKeys` are the caller's key names), and the external
record-creation call is never reached. -/
theorem claim_c2_validation (body : Body) (now : String)
    (h : Handler000.missingRequired body = true) :
    Handler000.handlerCore body now =
      Handler000.Outcome.validationError Handler000.requiredList (body.map Prod.fst) ∧
    (∀ ps, Handler000.handlerCore body now ≠ Handler000.Outcome.create ps) ∧
    (Js.trim (Handler000.safeStr (Handler000.mkData body).CaseID) = "" →
      "caseId/CaseID" ∈ Handler000.requiredList) ∧
    (Js.trim (Handler000.safeStr (Handler000.mkData body).Status) = "" →
      "status/Status" ∈ Handler000.requiredList) ∧
    (Js.trim (Handler000.safeStr (Handler000.mkData body).Urgency) = "" →
      "urgency/Urgency" ∈ Handler000.requiredList) ∧
    (Js.trim (Handler000.safeStr (Handler000.mkData body).Specialty) = "" →
      "specialty/Specialty" ∈ Handler000.requiredList) := by
  have he := Handler000.handlerCore_invalid body now h
  refine ⟨he, ?_, fun _ => by decide, fun _ => by decide, fun _ => by decide,
    fun _ => by decide⟩
  intro ps hc
  rw [he] at hc
  exact Handler000.Outcome.noConfusion hc

/-- Witness for C2: a payload supplying only `caseId` is rejected with
the validation-error payload. -/
theorem claim_c2_witness :
    Handler000.handlerCore [("caseId", JVal.vStr "X")] "T" =
      Handler000.Outcome.validationError Handler000.requiredList ["caseId"] :=
  (claim_c2_validation [("caseId", JVal.vStr "X")] "T" (by decide)).1

/-- C3 (counterexample): a payload that does supply a non-empty
`CaseID` but is missing the other required fields still gets a
`required` list containing `"caseId/CaseID"` — the error names the
full required set, not exactly the missing fields. -/
theorem claim_c3_cex :
    Handler000.handlerCore [("CaseID", JVal.vStr "X")] "T" =
      Handler000.Outcome.validationError Handler000.requiredList ["CaseID"] ∧
    Js.trim (Handler000.safeStr
      (Handler000.mkData [("CaseID", JVal.vStr "X")]).CaseID) ≠ "" ∧
    "caseId/CaseID" ∈ Handler000.requiredList := by decide

/-- C3 (amended): on validation failure the structured error carries
the constant full required-field list (which in particular contains
every missing field's name) and echoes exactly the key names the
caller supplied — no field values appear in the payload. -/
theorem claim_c3_error_shape (body : Body) (now : String)
    (h : Handler000.missingRequired body = true) :
    ∃ req keys, Handler000.handlerCore body now =
        Handler000.Outcome.validationError req keys ∧
      req = Handler000.requiredList ∧ keys = body.map Prod.fst :=
  ⟨Handler000.requiredList, body.map Prod.fst,
    Handler000.handlerCore_invalid body now h, rfl, rfl⟩

/-- Witness for C3 (amended). -/
theorem claim_c3_witness :
    ∃ req keys, Handler000.handlerCore [("Status", JVal.vStr "Open")] "T" =
        Handler000.Outcome.validationError req keys ∧
      req = Handler000.requiredList ∧ keys = ["Status"] :=
  claim_c3_error_shape [("Status", JVal.vStr "Open")] "T" (by decide)

/-- C5 (counterexample): for a native list input, `normalizeArray` does
not trim the elements — `[" A "]` normalizes to `[" A "]`, not to
`["A"]` as the claim's trimming of native-list elements predicts. -/
theorem claim_c5_cex :
    Handler000.normalizeArray (JVal.vArr [JVal.vStr " A "]) = [" A "] ∧
    (" A " : String) ≠ "A" := by decide

/-- C5 (amended): `normalizeArray` maps absent/null to the empty
sequence; a native list has its elements stringified (null/undefined
elements become the empty string) and empty strings dropped, with no
trimming of elements; any other value is stringified, split on commas,
each segment trimmed, and empty segments dropped — in particular
`"A, B, ,C"` normalizes to `["A","B","C"]` in order. -/
theorem claim_c5_normalizeArray :
    Handler000.normalizeArray .vNull = [] ∧
    Handler000.normalizeArray .vUndefined = [] ∧
    (∀ xs : List JVal, Handler000.normalizeArray (.vArr xs) =
      (xs.map Handler000.safeStr).filter (fun s => s ≠ "")) ∧
    (∀ s : String, Handler000.normalizeArray (.vStr s) =
      ((Js.splitComma s).map Js.trim).filter (fun s => s ≠ "")) ∧
    Handler000.normalizeArray (.vStr "A, B, ,C") = ["A", "B", "C"] ∧
    Handler000.normalizeArray
        (.vArr [JVal.vStr " A ", JVal.vStr "", JVal.vNull, JVal.vNum 3]) =
      [" A ", "3"] :=
  ⟨rfl, rfl, fun _ => rfl, fun _ => rfl, by decide, by decide⟩

/-- C6: numeric coercion is total and never errors — `undefined`,
`null` and the empty string coerce to no value, as does any string the
numeric parse rejects; when the field coerces to no value the number
property is omitted from the constructed set, and when it coerces to a
number `n` the property is present with exactly that value (for both
`Age` and `Budget`). -/
theorem claim_c6_numeric (body : Body) (now : String) :
    Handler000.toNumberOrNull .vUndefined = none ∧
    Handler000.toNumberOrNull .vNull = none ∧
    Handler000.toNumberOrNull (.vStr "") = none ∧
    (∀ s : String, s ≠ "" → Js.strToNum s = none →
      Handler000.toNumberOrNull (.vStr s) = none) ∧
    (Handler000.toNumberOrNull (Handler000.mkData body).Age = none →
      "Age" ∉ (Handler000.buildProps body now).map Prod.fst) ∧
    (∀ n, Handler000.toNumberOrNull (Handler000.mkData body).Age = some n →
      ("Age", NotionProp.number n) ∈ Handler000.buildProps body now) ∧
    (Handler000.toNumberOrNull (Handler000.mkData body).Budget = none →
      "Budget" ∉ (Handler000.buildProps body now).map Prod.fst) ∧
    (∀ n, Handler000.toNumberOrNull (Handler000.mkData body).Budget = some n →
      ("Budget", NotionProp.number n) ∈ Handler000.buildProps body now) := by
  refine ⟨rfl, rfl, rfl, ?_, ?_, ?_, ?_, ?_⟩
  · intro s hs hn
    unfold Handler000.toNumberOrNull
    rw [if_neg (by simp [hs])]
    simpa [Js.numberOf] using hn
  · exact fun hnone hmem => ((Handler000.mem_keys_age body now).mp hmem) hnone
  · exact fun n hn => Handler000.age_entry_mem body now n hn
  · exact fun hnone hmem => ((Handler000.mem_keys_budget body now).mp hmem) hnone
  · exact fun n hn => Handler000.budget_entry_mem body now n hn

/-- Witness for C6: a valid payload with the unparsable age `"abc"`
has no `Age` property in its constructed set. -/
theorem claim_c6_witness :
    "Age" ∉ (Handler000.buildProps [("CaseID", JVal.vStr "W6"),
      ("Status", JVal.vStr "Open"), ("Urgency", JVal.vStr "Low"),
      ("Specialty", JVal.vStr "Neuro"), ("Age", JVal.vStr "abc")] "T").map Prod.fst :=
  (claim_c6_numeric [("CaseID", JVal.vStr "W6"),
    ("Status", JVal.vStr "Open"), ("Urgency", JVal.vStr "Low"),
    ("Specialty", JVal.vStr "Neuro"), ("Age", JVal.vStr "abc")] "T").2.2.2.2.1
    (by decide)

/-- C7: for every recognized field the normalizer accepts both the
canonical-cased key and the lower-camel-case alias (both map to the
same logical field), and when both keys are present the
canonical-cased key's value wins. -/
theorem claim_c7_alias_priority (x y : JVal)
    (hx : Js.isNullish x = false) (hy : Js.isNullish y = false) :
    ((Handler000.mkData [("CaseID", x), ("caseId", y)]).CaseID = x ∧
      (Handler000.mkData [("caseId", y)]).CaseID = y) ∧
    ((Handler000.mkData [("Status", x), ("status", y)]).Status = x ∧
      (Handler000.mkData [("status", y)]).Status = y) ∧
    ((Handler000.mkData [("Urgency", x), ("urgency", y)]).Urgency = x ∧
      (Handler000.mkData [("urgency", y)]).Urgency = y) ∧
    ((Handler000.mkData [("Specialty", x), ("specialty", y)]).Specialty = x ∧
      (Handler000.mkData [("specialty", y)]).Specialty = y) ∧
    ((Handler000.mkData [("Age", x), ("age", y)]).Age = x ∧
      (Handler000.mkData [("age", y)]).Age = y) ∧
    ((Handler000.mkData [("Gender", x), ("gender", y)]).Gender = x ∧
      (Handler000.mkData [("gender", y)]).Gender = y) ∧
    ((Handler000.mkData [("Country", x), ("country", y)]).Country = x ∧
      (Handler000.mkData [("country", y)]).Country = y) ∧
    ((Handler000.mkData [("ChiefComplaint", x), ("chiefComplaint", y)]).ChiefComplaint = x ∧
      (Handler000.mkData [("chiefComplaint", y)]).ChiefComplaint = y) ∧
    ((Handler000.mkData [("Imaging", x), ("imaging", y)]).Imaging = x ∧
      (Handler000.mkData [("imaging", y)]).Imaging = y) ∧
    ((Handler000.mkData [("Notes", x), ("notes", y)]).Notes = x ∧
      (Handler000.mkData [("notes", y)]).Notes = y) ∧
    ((Handler000.mkData [("AssignedTo", x), ("assignedTo", y)]).AssignedTo = x ∧
      (Handler000.mkData [("assignedTo", y)]).AssignedTo = y) ∧
    ((Handler000.mkData [("HospitalsShortlist", x),
        ("hospitalsShortlist", y)]).HospitalsShortlist = x ∧
      (Handler000.mkData [("hospitalsShortlist", y)]).HospitalsShortlist = y) ∧
    ((Handler000.mkData [("Budget", x), ("budget", y)]).Budget = x ∧
      (Handler000.mkData [("budget", y)]).Budget = y) ∧
    ((Handler000.mkData [("Source", x), ("source", y)]).Source = x ∧
      (Handler000.mkData [("source", y)]).Source = y) := by
  refine ⟨⟨coalesce_not_nullish x y hx, rfl⟩, ⟨coalesce_not_nullish x y hx, rfl⟩,
    ⟨coalesce_not_nullish x y hx, rfl⟩, ⟨coalesce_not_nullish x y hx, rfl⟩,
    ⟨coalesce_not_nullish x y hx, rfl⟩, ⟨coalesce_not_nullish x y hx, rfl⟩,
    ⟨coalesce_not_nullish x y hx, rfl⟩, ⟨coalesce_not_nullish x y hx, rfl⟩,
    ⟨coalesce_not_nullish x y hx, rfl⟩, ⟨coalesce_not_nullish x y hx, rfl⟩,
    ⟨coalesce_not_nullish x y hx, rfl⟩, ⟨coalesce_not_nullish x y hx, rfl⟩,
    ⟨coalesce_not_nullish x y hx, rfl⟩, ⟨?_, ?_⟩⟩
  · show Js.coalesce (Js.coalesce x y) (JVal.vStr "GPT") = x
    rw [coalesce_not_nullish x y hx]
    exact coalesce_not_nullish x _ hx
  · show Js.coalesce (Js.coalesce JVal.vUndefined y) (JVal.vStr "GPT") = y
    exact coalesce_not_nullish y _ hy

/-- Witness for C7 at concrete string values. -/
theorem claim_c7_witness :
    (Handler000.mkData [("CaseID", JVal.vStr "canonical"),
      ("caseId", JVal.vStr "alias")]).CaseID = JVal.vStr "canonical" ∧
    (Handler000.mkData [("caseId", JVal.vStr "alias")]).CaseID = JVal.vStr "alias" :=
  (claim_c7_alias_priority (JVal.vStr "canonical") (JVal.vStr "alias")
    (by decide) (by decide)).1

/-- C8: the `AssignedTo` People-typed field is never populated from
request data — for every payload (including those supplying
`AssignedTo`/`assignedTo`) the constructed property set and the key
set handed to the external call contain no `AssignedTo` property. -/
theorem claim_c8_assignedTo (body : Body) (now : String) :
    "AssignedTo" ∉ (Handler000.buildProps body now).map Prod.fst ∧
    "AssignedTo" ∉ Handler000.handlerKeys body now := by
  refine ⟨Handler000.not_mem_keys_assignedTo body now, ?_⟩
  unfold Handler000.handlerKeys
  cases hv : Handler000.missingRequired body with
  | true =>
    rw [Handler000.handlerCore_invalid body now hv]
    simp
  | false =>
    rw [Handler000.handlerCore_valid body now hv]
    exact Handler000.not_mem_keys_assignedTo body now

/-- C9: a whitespace-only numeric string is not treated as absent —
`toNumberOrNull " "` is the number 0 and the property set of a valid
payload with age `" "` contains `Age = 0`, while the empty string
yields no value and the property is omitted. -/
theorem claim_c9_whitespace_zero :
    Handler000.toNumberOrNull (JVal.vStr " ") = some 0 ∧
    Handler000.toNumberOrNull (JVal.vStr "") = none ∧
    ("Age", NotionProp.number 0) ∈ Handler000.buildProps
      [("CaseID", JVal.vStr "C9"), ("Status", JVal.vStr "Open"),
       ("Urgency", JVal.vStr "Low"), ("Specialty", JVal.vStr "Ortho"),
       ("Age", JVal.vStr " ")] "T" ∧
    "Age" ∉ (Handler000.buildProps
      [("CaseID", JVal.vStr "C9"), ("Status", JVal.vStr "Open"),
       ("Urgency", JVal.vStr "Low"), ("Specialty", JVal.vStr "Ortho"),
       ("Age", JVal.vStr "")] "T").map Prod.fst := by decide

/-- C10: the `src/api/cases.js` variant requires only `caseId` — any
body whose trimmed `caseId` is non-empty is accepted (status, urgency
and specialty impose no requirement) — and when the status field is
absent or trims to empty the `Status` property is set to the literal
`"New"`. -/
theorem claim_c10_cases_requires_caseId (body : Body)
    (hcid : Js.trim (ApiCases.toStr (jget body "caseId")) ≠ "") :
    ApiCases.buildProperties body = Except.ok (ApiCases.casesProps body) ∧
    (Js.isNullish (jget body "status") = true ∨
        Js.trim (ApiCases.toStr (jget body "status")) = "" →
      ("Status", NotionProp.select "New") ∈ ApiCases.casesProps body) := by
  constructor
  · unfold ApiCases.buildProperties
    rw [if_neg hcid]
  · intro habs
    have hnew : (if ApiCases.statusVal body = "" then "New"
        else ApiCases.statusVal body) = "New" := by
      rcases habs with hn | he
      · have ht : Js.truthy (jget body "status") = false := by
          cases hv : jget body "status" <;> simp [hv, Js.isNullish] at hn ⊢ <;>
            simp [Js.truthy]
        have hsv : ApiCases.statusVal body = "New" := by
          unfold ApiCases.statusVal
          rw [if_neg (by simp [ht])]
          decide
        rw [hsv]
        decide
      · by_cases ht : Js.truthy (jget body "status") = true
        · have hsv : ApiCases.statusVal body = "" := by
            unfold ApiCases.statusVal
            rw [if_pos ht]
            exact he
          rw [hsv]
          decide
        · have hsv : ApiCases.statusVal body = "New" := by
            unfold ApiCases.statusVal
            rw [if_neg ht]
            decide
          rw [hsv]
          decide
    show ("Status", NotionProp.select "New") ∈ ApiCases.casesProps body
    unfold ApiCases.casesProps
    rw [hnew]
    simp

/-- Witness for C10: a body supplying only `caseId` is accepted and
its `Status` select is the literal `"New"`. -/
theorem claim_c10_witness :
    ApiCases.buildProperties [("caseId", JVal.vStr "X")] =
      Except.ok (ApiCases.casesProps [("caseId", JVal.vStr "X")]) ∧
    ("Status", NotionProp.select "New") ∈ ApiCases.casesProps [("caseId", JVal.vStr "X")] :=
  ⟨(claim_c10_cases_requires_caseId [("caseId", JVal.vStr "X")] (by decide)).1,
   (claim_c10_cases_requires_caseId [("caseId", JVal.vStr "X")] (by decide)).2
     (Or.inl (by decide))⟩
